import Mathlib

/-!
Shallow embedding of the hagz-push-server notification dispatcher.

Sources embedded here:
  * `src/pushNotificationSender.js` — `sendPushNotifications` (validate →
    chunk → submit → reconcile), the core batch dispatcher.
  * `src/unnamed/part_001` — `sendGameInvitationNotification` (single-recipient
    dispatch with store lookups) and `processMatchReminder` /
    `logNotifications` / `processTickets` (match-reminder job).
  * The `expo-server-sdk` collaborators the code calls:
    `Expo.isExpoPushToken` (token grammar) and
    `expo.chunkPushNotifications` (chunks of at most 100 messages; every
    message here addresses a single device, so each message counts once).

Effectful calls are made explicit: the push transport
(`expo.sendPushNotificationsAsync`) is a parameter giving, for each batch
ordinal and batch, either a thrown error or a list of tickets; database
queries are parameters holding their results; database writes become
entries of an effect trace.  JavaScript exceptions are modelled in the
`Except` monad, and `undefined` array reads (`tokens[index]` past the end)
as `Option` values.
-/

/-- Status field of an Expo push ticket: `'ok'` or `'error'`. -/
inductive TicketStatus : Type
  | ok : TicketStatus
  | error : TicketStatus
deriving DecidableEq, Repr

/-- An Expo push ticket.  `message` holds the provider's error message
(present on error tickets); `detailsError` models `ticket.details?.error`
(e.g. `"DeviceNotRegistered"`), absent when `details` is missing. -/
structure Ticket : Type where
  status : TicketStatus
  message : String := ""
  detailsError : Option String := none
deriving DecidableEq, Repr

/-- One push message as built by the senders (`to`, sound, title, body,
payload data, priority).  The payload is an open string map. -/
structure PushMessage : Type where
  «to» : String
  sound : String := "notification_sound.wav"
  title : String
  body : String
  payload : List (String × String) := []
  priority : String := "high"
deriving DecidableEq, Repr

/-- Result object returned by `sendPushNotifications`
(`{success, failed, total, invalidTokens, tickets}`).  An entry `none` in
`invalidTokens` models JavaScript `undefined` pushed when `tokens[index]`
is out of range. -/
structure DispatchResult : Type where
  success : Nat
  failed : Nat
  total : Nat
  invalidTokens : List (Option String)
  tickets : List Ticket
deriving DecidableEq, Repr

namespace Expo

/-- One character class of the UUID alternative of the token grammar:
`[a-z\d]` with the `i` flag, i.e. an ASCII letter or digit. -/
def isUuidChar (c : Char) : Bool :=
  c.isDigit || c.isLower || c.isUpper

/-- The UUID alternative of `Expo.isExpoPushToken`'s grammar:
`/^[a-z\d]{8}-[a-z\d]{4}-[a-z\d]{4}-[a-z\d]{4}-[a-z\d]{12}$/i`. -/
def isUuidFormat (t : String) : Bool :=
  let cs := t.data
  cs.length == 36 &&
    cs.enum.all fun ic =>
      if ic.1 == 8 || ic.1 == 13 || ic.1 == 18 || ic.1 == 23 then
        ic.2 == '-'
      else
        isUuidChar ic.2

/-- `Expo.isExpoPushToken` from `expo-server-sdk`: the argument is a
string of the shape `ExponentPushToken[...]` / `ExpoPushToken[...]`, or a
UUID.  `startsWith`/`endsWith` are modelled on the character list. -/
def isExpoPushToken (token : String) : Bool :=
  (("ExponentPushToken[".data.isPrefixOf token.data ||
        "ExpoPushToken[".data.isPrefixOf token.data) &&
      "]".data.isSuffixOf token.data)
    || isUuidFormat token

/-- Provider chunk-size bound used by `expo.chunkPushNotifications`. -/
def pushChunkSizeLimit : Nat := 100

/-- Fuel-indexed splitting loop: emit a chunk of at most `limit` elements
and recurse on the remainder.  The fuel only bounds the recursion; with
`limit ≥ 1` and fuel at least the list length it never runs out. -/
def chunkLoop {α : Type} (limit : Nat) : Nat → List α → List (List α)
  | _, [] => []
  | 0, _ :: _ => []
  | fuel + 1, x :: rest =>
    (x :: rest).take limit :: chunkLoop limit fuel ((x :: rest).drop limit)

/-- `expo.chunkPushNotifications`: split the message list into contiguous
chunks of at most 100 messages, preserving order (every message in this
repository has a single recipient, so each message counts once toward the
limit). -/
def chunkPushNotifications (messages : List PushMessage) : List (List PushMessage) :=
  chunkLoop pushChunkSizeLimit messages.length messages

end Expo

/-- The per-batch transport behaviour of `expo.sendPushNotificationsAsync`:
for the `i`-th submission call (on batch `chunk`) it either returns a
ticket list or raises.  The batch ordinal determinizes an effectful call. -/
def Transport : Type := Nat → List PushMessage → Except String (List Ticket)

/-- The validation-and-build loop of `sendPushNotifications` (lines 22-40):
tokens failing `Expo.isExpoPushToken` are skipped with a log; the rest
become messages in order. -/
def buildMessages (tokens : List String) (title body : String)
    (payload : List (String × String)) : List PushMessage :=
  (tokens.filter fun t => Expo.isExpoPushToken t).map fun t =>
    { «to» := t, title := title, body := body, payload := payload }

/-- The submission loop of `sendPushNotifications` (lines 47-55), in the
exception monad: each chunk is submitted inside `try`/`catch`; a raised
transport error is caught (only logged) and contributes no tickets. -/
def sendChunksE (transport : Transport) : Nat → List (List PushMessage) →
    Except String (List Ticket)
  | _, [] => Except.ok []
  | i, chunk :: rest => do
    let here ← Except.tryCatch
      (do
        let ticketChunk ← transport i chunk
        pure ticketChunk)
      (fun _ => pure [])
    let later ← sendChunksE transport (i + 1) rest
    pure (here ++ later)

/-- The ticket list the submission loop accumulates: tickets of each batch
whose transport call returned, nothing for a batch whose call raised. -/
def chunkTickets (transport : Transport) : Nat → List (List PushMessage) → List Ticket
  | _, [] => []
  | i, chunk :: rest =>
    (match transport i chunk with
      | Except.ok ticketChunk => ticketChunk
      | Except.error _ => []) ++ chunkTickets transport (i + 1) rest

/-- Running tallies of the reconciliation loop. -/
structure Tally : Type where
  success : Nat
  failed : Nat
  invalidTokens : List (Option String)
deriving DecidableEq, Repr

/-- The reconciliation loop of `sendPushNotifications` (lines 62-74):
`tickets.forEach((ticket, index) => ...)`, with `index` starting at
`start`.  A ticket with status `'ok'` increments `success`; any other
ticket increments `failed`, and when `ticket.details.error` is
`'DeviceNotRegistered'` the code pushes `tokens[index]` — an index into the
ORIGINAL, unfiltered token array (out-of-range reads give `undefined`,
modelled as `none`). -/
def reconcile (tokens : List String) : List Ticket → Nat → Tally
  | [], _ => { success := 0, failed := 0, invalidTokens := [] }
  | ticket :: rest, start =>
    let r := reconcile tokens rest (start + 1)
    if ticket.status = TicketStatus.ok then
      { r with success := r.success + 1 }
    else
      { success := r.success
        failed := r.failed + 1
        invalidTokens :=
          (if ticket.detailsError = some "DeviceNotRegistered" then
            [tokens.get? start]
          else []) ++ r.invalidTokens }

/-- `sendPushNotifications(tokens, title, body, data)` of
`src/pushNotificationSender.js`, in the exception monad (the transport is
the only caller that can raise; its raises are caught in the chunk loop).
Returns `{success, failed, total: tokens.length, invalidTokens, tickets}`. -/
def sendPushNotificationsE (tokens : List String) (title body : String)
    (payload : List (String × String)) (transport : Transport) :
    Except String DispatchResult := do
  let messages := buildMessages tokens title body payload
  let chunks := Expo.chunkPushNotifications messages
  let tickets ← sendChunksE transport 0 chunks
  let t := reconcile tokens tickets 0
  pure
    { success := t.success
      failed := t.failed
      total := tokens.length
      invalidTokens := t.invalidTokens
      tickets := tickets }

/-- The `DispatchResult` that `sendPushNotifications` actually returns
(shown below to be what `sendPushNotificationsE` always succeeds with). -/
def sendPushNotifications (tokens : List String) (title body : String)
    (payload : List (String × String)) (transport : Transport) : DispatchResult :=
  let messages := buildMessages tokens title body payload
  let chunks := Expo.chunkPushNotifications messages
  let tickets := chunkTickets transport 0 chunks
  let t := reconcile tokens tickets 0
  { success := t.success
    failed := t.failed
    total := tokens.length
    invalidTokens := t.invalidTokens
    tickets := tickets }

/-! ## Match-reminder and game-invitation senders (`src/unnamed/part_001`)

Database rows read by the job are parameters holding the query results;
database writes and transport submissions are recorded in an effect trace,
in program order. -/

/-- JavaScript truthiness of an optional string field: `null`/`undefined`
(here `none`) and the empty string are falsy. -/
def jsFalsy : Option String → Bool
  | none => true
  | some s => s == ""

/-- A row of `get_match_participants` (`{user_id, push_token, email}`). -/
structure Participant : Type where
  user_id : String
  push_token : Option String
  email : String
deriving DecidableEq, Repr

/-- A row of `get_matches_needing_reminders`. -/
structure MatchInfo : Type where
  booking_id : String
  pitch_name : String
  match_date : String
  match_time : String
  match_type : String
deriving DecidableEq, Repr

/-- A `notifications` table row as the senders insert it (the wall-clock
`sent_at` timestamp is left out of the model). -/
structure LogRow : Type where
  user_id : String
  «type» : String
  title : String
  message : String
  booking_id : String
  reminder_type : String := "2_hour_reminder"
  status : String
deriving DecidableEq, Repr

/-- An externally visible action of the reminder/invitation senders. -/
inductive Effect : Type
  | submitChunk (chunk : List PushMessage)
  | logRows (rows : List LogRow)
  | markSent (bookingId : String)
  | removeToken (userId : String)
deriving DecidableEq, Repr

/-- The participant filter of `processMatchReminder` (lines 602-604):
`p.push_token && Expo.isExpoPushToken(p.push_token)`. -/
def validParticipant (p : Participant) : Bool :=
  !jsFalsy p.push_token && Expo.isExpoPushToken (p.push_token.getD "")

/-- One reminder push message (lines 620-636). -/
def reminderMessage (p : Participant) (title message : String) (m : MatchInfo)
    (matchTime : String) : PushMessage :=
  { «to» := p.push_token.getD ""
    title := title
    body := message
    payload :=
      [("screen", "GameDetails"), ("gameId", m.booking_id),
        ("matchType", m.match_type), ("pitchName", m.pitch_name),
        ("matchTime", matchTime), ("notificationType", "match_reminder")] }

/-- The reminder submission loop (lines 644-652): submit every chunk in
order; a raised transport error is caught and logged, contributing no
tickets; the submission attempt itself is recorded as an effect. -/
def runChunks (transport : Transport) : Nat → List (List PushMessage) →
    List Effect × List Ticket
  | _, [] => ([], [])
  | i, chunk :: rest =>
    let later := runChunks transport (i + 1) rest
    (Effect.submitChunk chunk :: later.1,
      (match transport i chunk with
        | Except.ok ticketChunk => ticketChunk
        | Except.error _ => []) ++ later.2)

/-- One record built by `logNotifications` (lines 675-686): always inserted
with `status: 'sent'`, regardless of delivery. -/
def notificationRecord (p : Participant) (bookingId title message : String) : LogRow :=
  { user_id := p.user_id
    «type» := "match_reminder"
    title := title
    message := message
    booking_id := bookingId
    status := "sent" }

/-- `logNotifications(participants, bookingId, title, message)`
(lines 673-700): insert one `status: 'sent'` row per participant passed in. -/
def logNotifications (participants : List Participant)
    (bookingId title message : String) : Effect :=
  Effect.logRows (participants.map fun p => notificationRecord p bookingId title message)

/-- `processTickets(tickets, participants)` (lines 723-740): walk the
tickets with their index, read `participants[i]`, and null out the token of
the paired participant when the ticket reports `DeviceNotRegistered`.  When
`participants[i]` is `undefined` (more tickets than participants) the JS
body throws on `participant.email`; the throw is caught by the caller, so
the walk stops and no further effects happen. -/
def processTickets (participants : List Participant) : List Ticket → Nat → List Effect
  | [], _ => []
  | ticket :: rest, i =>
    match participants.get? i with
    | none => []
    | some participant =>
      (if ticket.status = TicketStatus.error ∧
          ticket.detailsError = some "DeviceNotRegistered" then
        [Effect.removeToken participant.user_id]
      else []) ++ processTickets participants rest (i + 1)

/-- `processMatchReminder(match)` (lines 582-668) as the trace of its
externally visible actions.  `participantsQuery` holds the
`get_match_participants` result (`Except.error` for a query error,
`Option` for a null row set); `fmt` is the locale time formatter
`formatMatchTime`. -/
def processMatchReminder (m : MatchInfo)
    (participantsQuery : Except String (Option (List Participant)))
    (fmt : String → String → String) (transport : Transport) : List Effect :=
  match participantsQuery with
  | Except.error _ => []
  | Except.ok none => [Effect.markSent m.booking_id]
  | Except.ok (some participants) =>
    if participants.isEmpty then [Effect.markSent m.booking_id]
    else
      let validParticipants := participants.filter validParticipant
      if validParticipants.isEmpty then [Effect.markSent m.booking_id]
      else
        let matchTime := fmt m.match_date m.match_time
        let matchTypeText :=
          if m.match_type == "ranked" then "Ranked Match" else "Friendly Match"
        let title := "⚽ " ++ matchTypeText ++ " Reminder"
        let message :=
          "Your match at " ++ m.pitch_name ++ " starts in 2 hours (" ++
            matchTime ++ "). Get ready!"
        let messages :=
          validParticipants.map fun p => reminderMessage p title message m matchTime
        let chunks := Expo.chunkPushNotifications messages
        let sent := runChunks transport 0 chunks
        sent.1 ++
          [logNotifications validParticipants m.booking_id title message] ++
          [Effect.markSent m.booking_id] ++
          processTickets validParticipants sent.2 0

/-- Row of `user_profiles` read for the invitation target. -/
structure TargetUser : Type where
  id : String
  push_token : Option String
  full_name : Option String
  email : Option String
deriving DecidableEq, Repr

/-- Row of `user_profiles` read for the inviter. -/
structure Inviter : Type where
  full_name : Option String
  email : Option String
deriving DecidableEq, Repr

/-- The object `sendGameInvitationNotification` returns:
`{success: true}` or `{success: false, error}`. -/
structure SendResult : Type where
  success : Bool
  error : Option String := none
deriving DecidableEq, Repr

/-- The `invitationData` argument of `sendGameInvitationNotification`. -/
structure InvitationData : Type where
  targetUserId : String
  inviterUserId : String
  gameId : String
  gameTitle : String
  gameDate : String
  gameTime : String
  pitchName : String
  pitchLocation : String
deriving DecidableEq, Repr

/-- JavaScript `a || b || dflt` over optional strings. -/
def jsOrString (a b : Option String) (dflt : String) : String :=
  if jsFalsy a then (if jsFalsy b then dflt else b.getD "") else a.getD ""

/-- The message of the engine's `TypeError` raised by `ticket.status` when
`tickets[0]` is `undefined`. -/
def undefinedStatusError : String :=
  "Cannot read properties of undefined (reading 'status')"

/-- The `notifications` row inserted by `logInvitationNotification`
(lines 192-218); its payload keeps the game id under `booking_id` here. -/
def invitationRecord (userId gameId title message inviterId : String) : LogRow :=
  { user_id := userId
    «type» := "game_invitation"
    title := title
    message := message
    booking_id := gameId
    reminder_type := inviterId
    status := "sent" }

/-- The invitation notification title (line 75). -/
def invitationTitle : String := "⚽ Game Invitation"

/-- The invitation notification body (line 76), built with the inviter's
display name (`full_name || email || 'Someone'`) and `formatDateTime`. -/
def invitationBody (inv : InvitationData) (inviter : Inviter)
    (fmt : String → String → String) : String :=
  jsOrString inviter.full_name inviter.email "Someone" ++
    " invited you to join a match at " ++ inv.pitchName ++ " on " ++
    fmt inv.gameDate inv.gameTime

/-- The invitation push message (lines 79-97). -/
def invitationMessage (inv : InvitationData) (targetUser : TargetUser)
    (inviter : Inviter) (fmt : String → String → String) : PushMessage :=
  { «to» := targetUser.push_token.getD ""
    title := invitationTitle
    body := invitationBody inv inviter fmt
    payload :=
      [("screen", "GameDetails"), ("gameId", inv.gameId),
        ("type", "game_invitation"), ("pitchName", inv.pitchName),
        ("gameDate", inv.gameDate), ("gameTime", inv.gameTime),
        ("inviterName", jsOrString inviter.full_name inviter.email "Someone"),
        ("notificationType", "game_invitation")] }

/-- `sendGameInvitationNotification(invitationData)` (lines 23-128).
`targetQuery`/`inviterQuery` hold the two `user_profiles` lookups (`none`
covers both a query error and a missing row — the code treats them alike);
`fmt` is `formatDateTime`; the transport is called on the one-message batch
and may raise.  The whole body runs inside `try`/`catch`, so every raise is
turned into `{success: false, error}`; the returned trace lists the
database writes. -/
def sendGameInvitationNotification (inv : InvitationData)
    (targetQuery : Option TargetUser) (inviterQuery : Option Inviter)
    (fmt : String → String → String)
    (transport : List PushMessage → Except String (List Ticket)) :
    SendResult × List Effect :=
  match targetQuery with
  | none => ({ success := false, error := some "User not found" }, [])
  | some targetUser =>
    if jsFalsy targetUser.push_token then
      ({ success := false, error := some "No push token" }, [])
    else if !Expo.isExpoPushToken (targetUser.push_token.getD "") then
      ({ success := false, error := some "Invalid push token" }, [])
    else
      match inviterQuery with
      | none => ({ success := false, error := some "Inviter not found" }, [])
      | some inviter =>
        match transport [invitationMessage inv targetUser inviter fmt] with
        | Except.error e => ({ success := false, error := some e }, [])
        | Except.ok tickets =>
          let logEffect :=
            Effect.logRows
              [invitationRecord inv.targetUserId inv.gameId invitationTitle
                (invitationBody inv inviter fmt) inv.inviterUserId]
          match tickets.head? with
          | none =>
            ({ success := false, error := some undefinedStatusError }, [logEffect])
          | some ticket =>
            if ticket.status = TicketStatus.error then
              if ticket.detailsError = some "DeviceNotRegistered" then
                ({ success := false, error := some ticket.message },
                  [logEffect, Effect.removeToken inv.targetUserId])
              else
                ({ success := false, error := some ticket.message }, [logEffect])
            else
              ({ success := true }, [logEffect])

/-! ## Helper lemmas -/

theorem chunkLoop_nil {α : Type} (limit fuel : Nat) :
    Expo.chunkLoop limit fuel ([] : List α) = [] := by
  cases fuel <;> rfl

theorem chunkLoop_congr {α : Type} (limit : Nat) (hl : 1 ≤ limit) :
    ∀ fuel fuel' (l : List α), l.length ≤ fuel → l.length ≤ fuel' →
      Expo.chunkLoop limit fuel l = Expo.chunkLoop limit fuel' l := by
  intro fuel
  induction fuel with
  | zero =>
    intro fuel' l hlen _
    cases l with
    | nil => rw [chunkLoop_nil, chunkLoop_nil]
    | cons x rest => simp at hlen
  | succ n ih =>
    intro fuel' l hlen hlen'
    cases l with
    | nil => rw [chunkLoop_nil, chunkLoop_nil]
    | cons x rest =>
      cases fuel' with
      | zero => simp at hlen'
      | succ m =>
        simp only [Expo.chunkLoop]
        congr 1
        apply ih
        · simp only [List.length_drop, List.length_cons]
          simp only [List.length_cons] at hlen
          omega
        · simp only [List.length_drop, List.length_cons]
          simp only [List.length_cons] at hlen'
          omega

theorem chunkLoop_flatten {α : Type} (limit : Nat) (hl : 1 ≤ limit) :
    ∀ fuel (l : List α), l.length ≤ fuel → (Expo.chunkLoop limit fuel l).flatten = l := by
  intro fuel
  induction fuel with
  | zero =>
    intro l h
    cases l with
    | nil => rfl
    | cons x rest => simp at h
  | succ n ih =>
    intro l h
    cases l with
    | nil => rfl
    | cons x rest =>
      simp only [Expo.chunkLoop, List.flatten_cons]
      rw [ih]
      · exact List.take_append_drop _ _
      · simp only [List.length_drop, List.length_cons]
        simp only [List.length_cons] at h
        omega

theorem chunkLoop_le_limit {α : Type} (limit : Nat) :
    ∀ fuel (l : List α) c, c ∈ Expo.chunkLoop limit fuel l → c.length ≤ limit := by
  intro fuel
  induction fuel with
  | zero =>
    intro l c hc
    cases l with
    | nil => simp [Expo.chunkLoop] at hc
    | cons x rest => simp [Expo.chunkLoop] at hc
  | succ n ih =>
    intro l c hc
    cases l with
    | nil => simp [Expo.chunkLoop] at hc
    | cons x rest =>
      simp only [Expo.chunkLoop, List.mem_cons] at hc
      rcases hc with h | h
      · subst h
        rw [List.length_take]
        exact min_le_left _ _
      · exact ih _ _ h

theorem chunkLoop_count {α : Type} :
    ∀ fuel (l : List α), l.length ≤ fuel →
      (Expo.chunkLoop 100 fuel l).length = (l.length + 99) / 100 := by
  intro fuel
  induction fuel with
  | zero =>
    intro l h
    cases l with
    | nil => simp [chunkLoop_nil]
    | cons x rest => simp at h
  | succ n ih =>
    intro l h
    cases l with
    | nil => simp [chunkLoop_nil]
    | cons x rest =>
      simp only [Expo.chunkLoop, List.length_cons]
      rw [ih]
      · simp only [List.length_drop, List.length_cons]
        omega
      · simp only [List.length_drop, List.length_cons]
        simp only [List.length_cons] at h
        omega

theorem chunkPushNotifications_pos (l : List PushMessage) (h : 0 < l.length) :
    Expo.chunkPushNotifications l =
      l.take 100 :: Expo.chunkPushNotifications (l.drop 100) := by
  cases l with
  | nil => simp at h
  | cons x rest =>
    show Expo.chunkLoop 100 (rest.length + 1) (x :: rest) = _
    simp only [Expo.chunkLoop]
    congr 1
    apply chunkLoop_congr 100 (by omega)
    · simp only [List.length_drop, List.length_cons]
      omega
    · exact le_refl _

theorem chunk_flatten (l : List PushMessage) :
    (Expo.chunkPushNotifications l).flatten = l :=
  chunkLoop_flatten Expo.pushChunkSizeLimit (by decide) l.length l (le_refl _)

theorem chunk_count (l : List PushMessage) :
    (Expo.chunkPushNotifications l).length = (l.length + 99) / 100 :=
  chunkLoop_count l.length l (le_refl _)

theorem chunk_le (l : List PushMessage) :
    ∀ c ∈ Expo.chunkPushNotifications l, c.length ≤ 100 :=
  fun c hc => chunkLoop_le_limit Expo.pushChunkSizeLimit l.length l c hc

theorem chunkPushNotifications_nil : Expo.chunkPushNotifications [] = [] := rfl

theorem chunk_map_length_250 (l : List PushMessage) (h : l.length = 250) :
    (Expo.chunkPushNotifications l).map List.length = [100, 100, 50] := by
  have hnil : (((l.drop 100).drop 100).drop 100) = [] := by
    rw [← List.length_eq_zero]
    simp only [List.length_drop]
    omega
  rw [chunkPushNotifications_pos l (by omega),
    chunkPushNotifications_pos (l.drop 100)
      (by simp only [List.length_drop]; omega),
    chunkPushNotifications_pos ((l.drop 100).drop 100)
      (by simp only [List.length_drop]; omega),
    hnil, chunkPushNotifications_nil]
  simp only [List.map_cons, List.map_nil, List.length_take, List.length_drop, h]
  norm_num

theorem sendChunksE_eq (transport : Transport) :
    ∀ chunks i, sendChunksE transport i chunks =
      Except.ok (chunkTickets transport i chunks) := by
  intro chunks
  induction chunks with
  | nil => intro i; rfl
  | cons c rest ih =>
    intro i
    cases h : transport i c <;>
      simp [sendChunksE, chunkTickets, h, ih, Except.tryCatch, Bind.bind,
        Except.bind, pure, Except.pure]

theorem sendPushNotificationsE_ok (tokens : List String) (title body : String)
    (payload : List (String × String)) (transport : Transport) :
    sendPushNotificationsE tokens title body payload transport =
      Except.ok (sendPushNotifications tokens title body payload transport) := by
  simp only [sendPushNotificationsE, sendPushNotifications]
  rw [sendChunksE_eq]
  rfl

theorem chunkTickets_length (transport : Transport)
    (hwb : ∀ i c, ∃ ts, transport i c = Except.ok ts ∧ ts.length = c.length) :
    ∀ chunks i, (chunkTickets transport i chunks).length = chunks.flatten.length := by
  intro chunks
  induction chunks with
  | nil => intro i; rfl
  | cons c rest ih =>
    intro i
    obtain ⟨ts, hts, hlen⟩ := hwb i c
    simp [chunkTickets, hts, ih, hlen]

theorem chunkTickets_split (transport : Transport) :
    ∀ chunks k i ck, chunks.get? k = some ck →
      chunkTickets transport i chunks =
        chunkTickets transport i (chunks.take k) ++
          (match transport (i + k) ck with
            | Except.ok ts => ts
            | Except.error _ => []) ++
          chunkTickets transport (i + k + 1) (chunks.drop (k + 1)) := by
  intro chunks
  induction chunks with
  | nil => intro k i ck h; simp at h
  | cons c rest ih =>
    intro k i ck h
    cases k with
    | zero =>
      simp only [List.get?] at h
      cases h
      simp [chunkTickets]
    | succ k' =>
      have h' : rest.get? k' = some ck := h
      have e1 : i + 1 + k' = i + (k' + 1) := by omega
      have e2 : i + 1 + k' + 1 = i + (k' + 1) + 1 := by omega
      simp only [List.take_succ_cons, List.drop_succ_cons, chunkTickets,
        List.append_assoc]
      rw [ih k' (i + 1) ck h', e1]
      simp only [List.append_assoc]

theorem reconcile_counts (tokens : List String) :
    ∀ tickets s, (reconcile tokens tickets s).success +
      (reconcile tokens tickets s).failed = tickets.length := by
  intro tickets
  induction tickets with
  | nil => intro s; rfl
  | cons t rest ih =>
    intro s
    have h' := ih (s + 1)
    by_cases h : t.status = TicketStatus.ok
    · simp [reconcile, h]
      omega
    · simp [reconcile, h]
      omega

theorem reconcile_failed (tokens : List String) :
    ∀ tickets s, (reconcile tokens tickets s).failed =
      (tickets.filter fun t => !decide (t.status = TicketStatus.ok)).length := by
  intro tickets
  induction tickets with
  | nil => intro s; rfl
  | cons t rest ih =>
    intro s
    have h' := ih (s + 1)
    by_cases h : t.status = TicketStatus.ok <;>
      simp [reconcile, h, List.filter_cons, h']

theorem reconcile_invalid_aligned (tokens : List String) :
    ∀ tickets s, s + tickets.length ≤ tokens.length →
      (reconcile tokens tickets s).invalidTokens =
        (((tokens.drop s).zip tickets).filter fun p =>
            decide (p.2.status = TicketStatus.error ∧
              p.2.detailsError = some "DeviceNotRegistered")).map
          (fun p => some p.1) := by
  intro tickets
  induction tickets with
  | nil => intro s h; simp [reconcile, List.zip_nil_right]
  | cons t rest ih =>
    intro s h
    simp only [List.length_cons] at h
    have hs : s < tokens.length := by omega
    have hdrop : tokens.drop s = tokens[s] :: tokens.drop (s + 1) :=
      List.drop_eq_getElem_cons hs
    have hget : tokens.get? s = some tokens[s] := by
      rw [List.get?_eq_getElem?, List.getElem?_eq_getElem hs]
    have ih' := ih (s + 1) (by omega)
    rw [hdrop, List.zip_cons_cons]
    by_cases hok : t.status = TicketStatus.ok
    · have hcnd : decide (t.status = TicketStatus.error ∧
          t.detailsError = some "DeviceNotRegistered") = false := by
        simp [hok]
      simp only [reconcile, if_pos hok, List.filter_cons, hcnd,
        Bool.false_eq_true, if_false]
      exact ih'
    · have herr : t.status = TicketStatus.error := by
        cases hst : t.status
        · exact absurd hst hok
        · rfl
      by_cases hdnr : t.detailsError = some "DeviceNotRegistered"
      · have hcnd : decide (t.status = TicketStatus.error ∧
            t.detailsError = some "DeviceNotRegistered") = true := by
          simp [herr, hdnr]
        simp only [reconcile, if_neg hok, if_pos hdnr, List.filter_cons, hcnd,
          if_true, List.map_cons, List.singleton_append, hget]
        rw [ih']
      · have hcnd : decide (t.status = TicketStatus.error ∧
            t.detailsError = some "DeviceNotRegistered") = false := by
          simp [hdnr]
        simp only [reconcile, if_neg hok, if_neg hdnr, List.filter_cons, hcnd,
          Bool.false_eq_true, if_false, List.nil_append]
        exact ih'

theorem runChunks_fst (transport : Transport) :
    ∀ chunks i, (runChunks transport i chunks).1 = chunks.map Effect.submitChunk := by
  intro chunks
  induction chunks with
  | nil => intro i; rfl
  | cons c rest ih => intro i; simp [runChunks, ih]

theorem runChunks_snd (transport : Transport) :
    ∀ chunks i, (runChunks transport i chunks).2 = chunkTickets transport i chunks := by
  intro chunks
  induction chunks with
  | nil => intro i; rfl
  | cons c rest ih => intro i; simp [runChunks, chunkTickets, ih]

theorem buildMessages_length (tokens : List String) (title body : String)
    (payload : List (String × String)) :
    (buildMessages tokens title body payload).length =
      (tokens.filter fun t => Expo.isExpoPushToken t).length := by
  simp [buildMessages]

theorem buildMessages_all_valid (tokens : List String) (title body : String)
    (payload : List (String × String))
    (h : ∀ t ∈ tokens, Expo.isExpoPushToken t = true) :
    (buildMessages tokens title body payload).length = tokens.length := by
  rw [buildMessages_length, List.filter_eq_self.mpr h]

/-! ## Concrete fixtures used by counterexamples and witnesses -/

/-- A transport that answers every batch with an empty ticket list. -/
def transportEmptyOk : Transport := fun _ _ => Except.ok []

/-- A transport answering every batch with one ok ticket per message. -/
def transportAllOk : Transport := fun _ chunk =>
  Except.ok (chunk.map fun _ => { status := TicketStatus.ok })

/-- A transport whose every call raises. -/
def transportRaise : Transport := fun _ _ => Except.error "network error"

/-- An error ticket reporting `DeviceNotRegistered`. -/
def dnrTicket : Ticket :=
  { status := TicketStatus.error
    message := "device not registered"
    detailsError := some "DeviceNotRegistered" }

/-- A transport answering every batch with the single ticket `dnrTicket`. -/
def transportOneDnr : Transport := fun _ _ => Except.ok [dnrTicket]

/-- A transport answering every batch with one `dnrTicket` per message. -/
def transportAllDnr : Transport := fun _ chunk =>
  Except.ok (chunk.map fun _ => dnrTicket)

/-! ## Claims -/

/-- C1 counterexample: on `["bad"]` (one malformed token) the result's
`total` field is `1 = len(recipients)`, while the count of recipients that
passed address validation is `0` — so `total` is not the count of validated
recipients, and `submitted + skipped = 1 + 1 ≠ 1 = len(recipients)` if
`submitted` is read off the `total` field, refuting the claim as stated. -/
theorem c1_total_counts_cex :
    (sendPushNotifications ["bad"] "t" "b" [] transportEmptyOk).total = 1 ∧
    (buildMessages ["bad"] "t" "b" []).length = 0 := by decide

/-- C1 (amended): the result's `total` field equals `len(recipients)` (the
unfiltered input length), not the validated count; and when the transport
returns one ticket per submitted message without raising,
`delivered + failed` equals the count of validated recipients, so
`delivered + failed + skipped(malformed) = len(recipients)`. -/
theorem c1_count_identities (tokens : List String) (title body : String)
    (payload : List (String × String)) (transport : Transport)
    (hwb : ∀ i c, ∃ ts, transport i c = Except.ok ts ∧ ts.length = c.length) :
    (sendPushNotifications tokens title body payload transport).total =
      tokens.length ∧
    (sendPushNotifications tokens title body payload transport).success +
        (sendPushNotifications tokens title body payload transport).failed =
      (buildMessages tokens title body payload).length ∧
    (sendPushNotifications tokens title body payload transport).success +
        (sendPushNotifications tokens title body payload transport).failed +
        (tokens.length - (buildMessages tokens title body payload).length) =
      tokens.length := by
  have h1 : (sendPushNotifications tokens title body payload transport).success +
      (sendPushNotifications tokens title body payload transport).failed =
      (chunkTickets transport 0
        (Expo.chunkPushNotifications (buildMessages tokens title body payload))).length :=
    reconcile_counts tokens _ 0
  have h2 := chunkTickets_length transport hwb
    (Expo.chunkPushNotifications (buildMessages tokens title body payload)) 0
  have h3 : (Expo.chunkPushNotifications
      (buildMessages tokens title body payload)).flatten.length =
      (buildMessages tokens title body payload).length := by
    rw [chunk_flatten]
  have hle : (buildMessages tokens title body payload).length ≤ tokens.length := by
    rw [buildMessages_length]
    exact List.length_filter_le _ _
  refine ⟨rfl, ?_, ?_⟩
  · rw [h1, h2, h3]
  · rw [h1, h2, h3]
    omega

/-- C1 witness: the amended identities evaluated on one valid and one
malformed token with a well-behaved transport. -/
theorem c1_count_identities_witness :
    (sendPushNotifications ["ExponentPushToken[a]", "bad"] "t" "b" []
        transportAllOk).total = ["ExponentPushToken[a]", "bad"].length ∧
    (sendPushNotifications ["ExponentPushToken[a]", "bad"] "t" "b" []
          transportAllOk).success +
        (sendPushNotifications ["ExponentPushToken[a]", "bad"] "t" "b" []
          transportAllOk).failed =
      (buildMessages ["ExponentPushToken[a]", "bad"] "t" "b" []).length ∧
    (sendPushNotifications ["ExponentPushToken[a]", "bad"] "t" "b" []
          transportAllOk).success +
        (sendPushNotifications ["ExponentPushToken[a]", "bad"] "t" "b" []
          transportAllOk).failed +
        (["ExponentPushToken[a]", "bad"].length -
          (buildMessages ["ExponentPushToken[a]", "bad"] "t" "b" []).length) =
      ["ExponentPushToken[a]", "bad"].length :=
  c1_count_identities ["ExponentPushToken[a]", "bad"] "t" "b" [] transportAllOk
    (fun _ c => ⟨c.map fun _ => { status := TicketStatus.ok }, rfl, by simp⟩)

/-- C2: evaluation at the failing input.  With tokens `["bad",
"ExponentPushToken[abc]"]` only the valid token is submitted (it is
position 0 of batch 0), and the transport answers its one-message batch
with a `DeviceNotRegistered` error ticket; the code nevertheless attributes
that outcome to `tokens[0] = "bad"` — a recipient that was never submitted
— because the reconciliation loop indexes the ORIGINAL unfiltered token
array with the global ticket index. -/
theorem c2_positional_misattribution :
    (sendPushNotifications ["bad", "ExponentPushToken[abc]"] "t" "b" []
        transportOneDnr).invalidTokens = [some "bad"] ∧
    buildMessages ["bad", "ExponentPushToken[abc]"] "t" "b" [] =
      [{ «to» := "ExponentPushToken[abc]", title := "t", body := "b" }] ∧
    (sendPushNotifications ["bad", "ExponentPushToken[abc]"] "t" "b" []
        transportOneDnr).tickets = [dnrTicket] := by decide

/-- C3 counterexample: one valid recipient in a single batch whose
transport call raises.  The failure is caught, but the batch's recipient is
counted neither delivered nor failed (`failed = 0`, not `1` as the claim's
"treated as failed with errorKind = Unknown" requires), and no ticket with
`errorKind = Unknown` is synthesized. -/
theorem c3_raised_batch_not_failed_cex :
    (sendPushNotifications ["ExponentPushToken[a]"] "t" "b" []
        transportRaise).failed = 0 ∧
    (sendPushNotifications ["ExponentPushToken[a]"] "t" "b" []
        transportRaise).success = 0 ∧
    (sendPushNotifications ["ExponentPushToken[a]"] "t" "b" []
        transportRaise).tickets = [] := by decide

/-- C3 (amended): when the transport raises for batch `k`, the failure is
caught — `sendPushNotifications` still returns its result in the exception
monad — and dispatch proceeds: the ticket list is exactly the concatenation
of the other batches' tickets (batch `k` contributes nothing, so its
recipients are dropped from the tallies rather than counted failed), and
`delivered + failed` counts exactly those remaining tickets. -/
theorem c3_batch_isolation (tokens : List String) (title body : String)
    (payload : List (String × String)) (transport : Transport) (k : Nat)
    (ck : List PushMessage) (e : String)
    (hk : (Expo.chunkPushNotifications
      (buildMessages tokens title body payload)).get? k = some ck)
    (he : transport k ck = Except.error e) :
    sendPushNotificationsE tokens title body payload transport =
      Except.ok (sendPushNotifications tokens title body payload transport) ∧
    (sendPushNotifications tokens title body payload transport).tickets =
      chunkTickets transport 0
        ((Expo.chunkPushNotifications
          (buildMessages tokens title body payload)).take k) ++
      chunkTickets transport (k + 1)
        ((Expo.chunkPushNotifications
          (buildMessages tokens title body payload)).drop (k + 1)) ∧
    (sendPushNotifications tokens title body payload transport).success +
        (sendPushNotifications tokens title body payload transport).failed =
      (sendPushNotifications tokens title body payload transport).tickets.length := by
  refine ⟨sendPushNotificationsE_ok tokens title body payload transport, ?_,
    reconcile_counts tokens _ 0⟩
  have hsplit := chunkTickets_split transport
    (Expo.chunkPushNotifications (buildMessages tokens title body payload)) k 0 ck hk
  rw [Nat.zero_add] at hsplit
  rw [he] at hsplit
  show chunkTickets transport 0
      (Expo.chunkPushNotifications (buildMessages tokens title body payload)) = _
  rw [hsplit]
  simp

/-- C3 witness: one valid token forming one batch whose transport call
raises; the amended statement evaluated there. -/
theorem c3_batch_isolation_witness :
    sendPushNotificationsE ["ExponentPushToken[a]"] "t" "b" [] transportRaise =
      Except.ok (sendPushNotifications ["ExponentPushToken[a]"] "t" "b" []
        transportRaise) ∧
    (sendPushNotifications ["ExponentPushToken[a]"] "t" "b" []
        transportRaise).tickets =
      chunkTickets transportRaise 0
        ((Expo.chunkPushNotifications
          (buildMessages ["ExponentPushToken[a]"] "t" "b" [])).take 0) ++
      chunkTickets transportRaise 1
        ((Expo.chunkPushNotifications
          (buildMessages ["ExponentPushToken[a]"] "t" "b" [])).drop 1) ∧
    (sendPushNotifications ["ExponentPushToken[a]"] "t" "b" []
          transportRaise).success +
        (sendPushNotifications ["ExponentPushToken[a]"] "t" "b" []
          transportRaise).failed =
      (sendPushNotifications ["ExponentPushToken[a]"] "t" "b" []
        transportRaise).tickets.length :=
  c3_batch_isolation ["ExponentPushToken[a]"] "t" "b" [] transportRaise 0
    [{ «to» := "ExponentPushToken[a]", title := "t", body := "b" }]
    "network error" (by decide) rfl

/-- C4: evaluation at the failing input.  `"zzz"` fails validation and is
excluded from submission (no built message carries it), yet it DOES appear
in the result's `invalidRecipients` set: the `DeviceNotRegistered` outcome
of the one submitted recipient is attributed to `tokens[0] = "zzz"` by the
misaligned index, refuting "never appears in invalidRecipients". -/
theorem c4_malformed_in_invalid_set :
    Expo.isExpoPushToken "zzz" = false ∧
    (buildMessages ["zzz", "ExponentPushToken[q]"] "t" "b" []).all
      (fun msg => msg.«to» != "zzz") = true ∧
    some "zzz" ∈ (sendPushNotifications ["zzz", "ExponentPushToken[q]"] "t" "b" []
        transportOneDnr).invalidTokens := by decide

/-- C5 counterexample: the submitted recipient `"ExponentPushToken[r]"` is
the only recipient of batch 0 and its outcome is the `DeviceNotRegistered`
error ticket, yet it is NOT added to `invalidRecipients` (the misaligned
index picks the malformed `"bad2"` instead), refuting the claimed
"if and only if". -/
theorem c5_dnr_recipient_not_flagged_cex :
    (sendPushNotifications ["bad2", "ExponentPushToken[r]"] "t" "b" []
        transportOneDnr).tickets = [dnrTicket] ∧
    some "ExponentPushToken[r]" ∉
      (sendPushNotifications ["bad2", "ExponentPushToken[r]"] "t" "b" []
        transportOneDnr).invalidTokens := by decide

/-- C5 (amended): when every recipient passes validation and the transport
returns one ticket per submitted message without raising (so ticket `i`
IS recipient `i`'s outcome), `invalidRecipients` consists of exactly the
recipients whose outcome has status error with
`errorKind = DeviceNotRegistered`, in submission order; a recipient with
any other error outcome is counted in `failed` (which counts exactly the
non-ok tickets) but is not flagged. -/
theorem c5_flagging_characterization (tokens : List String) (title body : String)
    (payload : List (String × String)) (transport : Transport)
    (hval : ∀ t ∈ tokens, Expo.isExpoPushToken t = true)
    (hwb : ∀ i c, ∃ ts, transport i c = Except.ok ts ∧ ts.length = c.length) :
    (sendPushNotifications tokens title body payload transport).tickets.length =
      tokens.length ∧
    (sendPushNotifications tokens title body payload transport).invalidTokens =
      ((tokens.zip
          (sendPushNotifications tokens title body payload transport).tickets).filter
        fun p => decide (p.2.status = TicketStatus.error ∧
          p.2.detailsError = some "DeviceNotRegistered")).map (fun p => some p.1) ∧
    (sendPushNotifications tokens title body payload transport).failed =
      ((sendPushNotifications tokens title body payload transport).tickets.filter
        fun t => !decide (t.status = TicketStatus.ok)).length := by
  have hlen : (chunkTickets transport 0
      (Expo.chunkPushNotifications (buildMessages tokens title body payload))).length =
      tokens.length := by
    rw [chunkTickets_length transport hwb, chunk_flatten,
      buildMessages_all_valid tokens title body payload hval]
  refine ⟨hlen, ?_, reconcile_failed tokens _ 0⟩
  have := reconcile_invalid_aligned tokens
    (chunkTickets transport 0
      (Expo.chunkPushNotifications (buildMessages tokens title body payload))) 0
    (by rw [hlen]; omega)
  rw [List.drop_zero] at this
  exact this

/-- C5 witness: one valid token, transport answering one
`DeviceNotRegistered` ticket per message; the characterization evaluated
there. -/
theorem c5_flagging_characterization_witness :
    (sendPushNotifications ["ExponentPushToken[w]"] "t" "b" []
        transportAllDnr).tickets.length = ["ExponentPushToken[w]"].length ∧
    (sendPushNotifications ["ExponentPushToken[w]"] "t" "b" []
        transportAllDnr).invalidTokens =
      ((["ExponentPushToken[w]"].zip
          (sendPushNotifications ["ExponentPushToken[w]"] "t" "b" []
            transportAllDnr).tickets).filter
        fun p => decide (p.2.status = TicketStatus.error ∧
          p.2.detailsError = some "DeviceNotRegistered")).map (fun p => some p.1) ∧
    (sendPushNotifications ["ExponentPushToken[w]"] "t" "b" []
        transportAllDnr).failed =
      ((sendPushNotifications ["ExponentPushToken[w]"] "t" "b" []
          transportAllDnr).tickets.filter
        fun t => !decide (t.status = TicketStatus.ok)).length :=
  c5_flagging_characterization ["ExponentPushToken[w]"] "t" "b" [] transportAllDnr
    (by decide) (fun _ c => ⟨c.map fun _ => dnrTicket, rfl, by simp⟩)

/-- C6: for every token list, message content, and per-batch transport
behaviour (raising or returning per-recipient error tickets), the dispatch
computation in the exception monad returns `Except.ok` of the
`DispatchResult` that `sendPushNotifications` computes — no malformed
address, transport raise, or provider-reported per-recipient error escapes
the call as an exception. -/
theorem c6_no_exception_escapes (tokens : List String) (title body : String)
    (payload : List (String × String)) (transport : Transport) :
    sendPushNotificationsE tokens title body payload transport =
      Except.ok (sendPushNotifications tokens title body payload transport) :=
  sendPushNotificationsE_ok tokens title body payload transport

/-- C7: the validated message list is split into `⌈N / 100⌉` contiguous
batches, each of at most 100 messages, whose concatenation is the original
validated list (order preserved); the submission loop performs exactly one
submission call per batch; and a 250-message list yields exactly 3 batches
of sizes 100, 100, 50. -/
theorem c7_chunk_partitioning (tokens : List String) (title body : String)
    (payload : List (String × String)) (msgs : List PushMessage)
    (chunks : List (List PushMessage))
    (hm : msgs = buildMessages tokens title body payload)
    (hc : chunks = Expo.chunkPushNotifications msgs) :
    chunks.length = (msgs.length + 99) / 100 ∧
    (∀ c ∈ chunks, c.length ≤ 100) ∧
    chunks.flatten = msgs ∧
    (∀ transport : Transport,
      (runChunks transport 0 chunks).1 = chunks.map Effect.submitChunk) ∧
    (msgs.length = 250 → chunks.map List.length = [100, 100, 50]) := by
  subst hm
  subst hc
  exact ⟨chunk_count _, chunk_le _, chunk_flatten _,
    fun transport => runChunks_fst transport _ 0, chunk_map_length_250 _⟩

/-- C7 witness: 250 valid tokens produce exactly the batch sizes
100, 100, 50. -/
theorem c7_chunk_partitioning_witness :
    (Expo.chunkPushNotifications
      (buildMessages (List.replicate 250 "ExponentPushToken[a]") "t" "b" [])).map
      List.length = [100, 100, 50] :=
  (c7_chunk_partitioning (List.replicate 250 "ExponentPushToken[a]") "t" "b" [] _ _
      rfl rfl).2.2.2.2
    (by
      rw [buildMessages_length, List.filter_replicate,
        if_pos (by decide : Expo.isExpoPushToken "ExponentPushToken[a]" = true)]
      exact List.length_replicate 250 _)

/-- C8: when the participant query returns no participants (an empty or
null row set), or participants none of whom has a valid push token,
`processMatchReminder` performs no submission call and its only effect is
marking the reminder sent — zero-recipient dispatch is an implicit
success. -/
theorem c8_zero_recipients_marks_sent (m : MatchInfo) (ps : List Participant)
    (fmt : String → String → String) (transport : Transport)
    (h : ps.filter validParticipant = []) :
    processMatchReminder m (Except.ok (some ps)) fmt transport =
      [Effect.markSent m.booking_id] ∧
    processMatchReminder m (Except.ok none) fmt transport =
      [Effect.markSent m.booking_id] := by
  refine ⟨?_, rfl⟩
  cases hps : ps.isEmpty with
  | true => simp [processMatchReminder, hps]
  | false => simp [processMatchReminder, hps, h]

/-- A concrete match row for witnesses. -/
def matchX : MatchInfo :=
  { booking_id := "b1", pitch_name := "Pitch", match_date := "2024-01-01",
    match_time := "18:00", match_type := "ranked" }

/-- A locale formatter standing in for `formatMatchTime`/`formatDateTime`. -/
def fmtFirst : String → String → String := fun d _ => d

/-- C8 witness: one participant without a push token, and a null row set,
each lead to the single `markSent` effect. -/
theorem c8_zero_recipients_marks_sent_witness :
    processMatchReminder matchX
        (Except.ok (some [{ user_id := "u1", push_token := none, email := "e" }]))
        fmtFirst transportRaise = [Effect.markSent matchX.booking_id] ∧
    processMatchReminder matchX (Except.ok none) fmtFirst transportRaise =
      [Effect.markSent matchX.booking_id] :=
  c8_zero_recipients_marks_sent matchX
    [{ user_id := "u1", push_token := none, email := "e" }] fmtFirst
    transportRaise (by decide)

/-- C10: for every match whose participant query returns at least one
participant with a valid push token, the trace of `processMatchReminder`
is: the submission attempts, then ONE `logRows` insert holding one
`status: 'sent'` row per valid participant, then `markSent` — for every
transport behaviour, in particular when every chunk submission raised and
nothing was delivered. -/
theorem c10_log_and_mark_unconditional (m : MatchInfo) (ps : List Participant)
    (fmt : String → String → String) (transport : Transport)
    (hv : ps.filter validParticipant ≠ []) :
    ∃ title message cleanup,
      processMatchReminder m (Except.ok (some ps)) fmt transport =
        ((Expo.chunkPushNotifications ((ps.filter validParticipant).map fun p =>
            reminderMessage p title message m (fmt m.match_date m.match_time))).map
          Effect.submitChunk) ++
        [Effect.logRows ((ps.filter validParticipant).map fun p =>
          notificationRecord p m.booking_id title message)] ++
        [Effect.markSent m.booking_id] ++ cleanup ∧
      ((ps.filter validParticipant).map fun p =>
          notificationRecord p m.booking_id title message).length =
        (ps.filter validParticipant).length ∧
      ∀ row ∈ (ps.filter validParticipant).map fun p =>
          notificationRecord p m.booking_id title message, row.status = "sent" := by
  have hps : ps.isEmpty = false := by
    cases hh : ps with
    | nil => rw [hh] at hv; exact absurd rfl hv
    | cons a l => rfl
  have hve : (ps.filter validParticipant).isEmpty = false := by
    cases hh : ps.filter validParticipant with
    | nil => exact absurd hh hv
    | cons a l => rfl
  refine ⟨"⚽ " ++ (if m.match_type == "ranked" then "Ranked Match"
      else "Friendly Match") ++ " Reminder",
    "Your match at " ++ m.pitch_name ++ " starts in 2 hours (" ++
      fmt m.match_date m.match_time ++ "). Get ready!",
    processTickets (ps.filter validParticipant)
      (runChunks transport 0 (Expo.chunkPushNotifications
        ((ps.filter validParticipant).map fun p =>
          reminderMessage p
            ("⚽ " ++ (if m.match_type == "ranked" then "Ranked Match"
              else "Friendly Match") ++ " Reminder")
            ("Your match at " ++ m.pitch_name ++ " starts in 2 hours (" ++
              fmt m.match_date m.match_time ++ "). Get ready!")
            m (fmt m.match_date m.match_time)))).2 0, ?_, ?_, ?_⟩
  · simp only [processMatchReminder, hps, Bool.false_eq_true, if_false, hve]
    rw [runChunks_fst]
    rfl
  · exact List.length_map _ _
  · intro row hrow
    rw [List.mem_map] at hrow
    obtain ⟨p, _, hrow⟩ := hrow
    rw [← hrow]
    rfl

/-- A valid participant for the C10 witness. -/
def participantX : Participant :=
  { user_id := "u1", push_token := some "ExponentPushToken[a]", email := "e" }

/-- C10 witness: one valid participant, every chunk submission raising —
the `'sent'` log row and the `markSent` effect still happen. -/
theorem c10_log_and_mark_unconditional_witness :
    ∃ title message cleanup,
      processMatchReminder matchX (Except.ok (some [participantX])) fmtFirst
          transportRaise =
        ((Expo.chunkPushNotifications
            (([participantX].filter validParticipant).map fun p =>
              reminderMessage p title message matchX
                (fmtFirst matchX.match_date matchX.match_time))).map
          Effect.submitChunk) ++
        [Effect.logRows (([participantX].filter validParticipant).map fun p =>
          notificationRecord p matchX.booking_id title message)] ++
        [Effect.markSent matchX.booking_id] ++ cleanup ∧
      (([participantX].filter validParticipant).map fun p =>
          notificationRecord p matchX.booking_id title message).length =
        ([participantX].filter validParticipant).length ∧
      ∀ row ∈ ([participantX].filter validParticipant).map fun p =>
          notificationRecord p matchX.booking_id title message,
        row.status = "sent" :=
  c10_log_and_mark_unconditional matchX [participantX] fmtFirst transportRaise
    (by decide)

/-- C9: `sendGameInvitationNotification` never raises: for every store
behaviour and every (one-ticket-per-message) transport behaviour it
returns an object, every failure path carrying `success: false` with a
string `error`; and it returns `{success: true}` exactly when the target
lookup succeeds with a present, valid Expo push token, the inviter lookup
succeeds, and the single returned ticket's status is not `'error'`. -/
theorem c9_invitation_result (inv : InvitationData)
    (targetQuery : Option TargetUser) (inviterQuery : Option Inviter)
    (fmt : String → String → String)
    (transport : List PushMessage → Except String (List Ticket))
    (hwb : ∀ msgs ts, transport msgs = Except.ok ts → ts.length = msgs.length) :
    ((sendGameInvitationNotification inv targetQuery inviterQuery fmt
          transport).1.success = true ∨
      ((sendGameInvitationNotification inv targetQuery inviterQuery fmt
          transport).1.success = false ∧
        (sendGameInvitationNotification inv targetQuery inviterQuery fmt
          transport).1.error.isSome = true)) ∧
    ((sendGameInvitationNotification inv targetQuery inviterQuery fmt
        transport).1.success = true ↔
      ∃ u iv t, targetQuery = some u ∧ inviterQuery = some iv ∧
        jsFalsy u.push_token = false ∧
        Expo.isExpoPushToken (u.push_token.getD "") = true ∧
        transport [invitationMessage inv u iv fmt] = Except.ok [t] ∧
        ¬t.status = TicketStatus.error) := by
  cases targetQuery with
  | none =>
    refine ⟨Or.inr ⟨rfl, rfl⟩, ?_, ?_⟩
    · intro h
      exact Bool.noConfusion h
    · rintro ⟨u, iv, t, hu, -⟩
      exact Option.noConfusion hu
  | some u =>
    cases hft : jsFalsy u.push_token with
    | true =>
      have hred : (sendGameInvitationNotification inv (some u) inviterQuery fmt
          transport).1 = { success := false, error := some "No push token" } := by
        simp [sendGameInvitationNotification, hft]
      rw [hred]
      refine ⟨Or.inr ⟨rfl, rfl⟩, ?_, ?_⟩
      · intro h
        exact Bool.noConfusion h
      · rintro ⟨u', iv, t, hu, hiv, hjf, -⟩
        injection hu with hu'
        subst hu'
        rw [hft] at hjf
        exact Bool.noConfusion hjf
    | false =>
      cases hex : Expo.isExpoPushToken (u.push_token.getD "") with
      | false =>
        have hred : (sendGameInvitationNotification inv (some u) inviterQuery fmt
            transport).1 =
            { success := false, error := some "Invalid push token" } := by
          simp [sendGameInvitationNotification, hft, hex]
        rw [hred]
        refine ⟨Or.inr ⟨rfl, rfl⟩, ?_, ?_⟩
        · intro h
          exact Bool.noConfusion h
        · rintro ⟨u', iv, t, hu, hiv, hjf, hex', -⟩
          injection hu with hu'
          subst hu'
          rw [hex] at hex'
          exact Bool.noConfusion hex'
      | true =>
        cases inviterQuery with
        | none =>
          have hred : (sendGameInvitationNotification inv (some u) none fmt
              transport).1 =
              { success := false, error := some "Inviter not found" } := by
            simp [sendGameInvitationNotification, hft, hex]
          rw [hred]
          refine ⟨Or.inr ⟨rfl, rfl⟩, ?_, ?_⟩
          · intro h
            exact Bool.noConfusion h
          · rintro ⟨u', iv, t, hu, hiv, -⟩
            exact Option.noConfusion hiv
        | some iv =>
          cases htr : transport [invitationMessage inv u iv fmt] with
          | error e =>
            have hred : (sendGameInvitationNotification inv (some u) (some iv) fmt
                transport).1 = { success := false, error := some e } := by
              simp [sendGameInvitationNotification, hft, hex, htr]
            rw [hred]
            refine ⟨Or.inr ⟨rfl, rfl⟩, ?_, ?_⟩
            · intro h
              exact Bool.noConfusion h
            · rintro ⟨u', iv', t, hu, hiv, hjf, hex', htr', -⟩
              injection hu with hu'
              subst hu'
              injection hiv with hiv'
              subst hiv'
              rw [htr] at htr'
              exact Except.noConfusion htr'
          | ok ts =>
            cases ts with
            | nil =>
              have hred : (sendGameInvitationNotification inv (some u) (some iv)
                  fmt transport).1 =
                  { success := false, error := some undefinedStatusError } := by
                simp [sendGameInvitationNotification, hft, hex, htr]
              rw [hred]
              refine ⟨Or.inr ⟨rfl, rfl⟩, ?_, ?_⟩
              · intro h
                exact Bool.noConfusion h
              · rintro ⟨u', iv', t, hu, hiv, hjf, hex', htr', -⟩
                injection hu with hu'
                subst hu'
                injection hiv with hiv'
                subst hiv'
                rw [htr] at htr'
                injection htr' with hts
                exact List.noConfusion hts
            | cons t0 rest =>
              have hlen := hwb _ _ htr
              simp only [List.length_cons] at hlen
              have hrest : rest = [] := by
                cases rest with
                | nil => rfl
                | cons a l => simp at hlen
              subst hrest
              by_cases hst : t0.status = TicketStatus.error
              · by_cases hdnr : t0.detailsError = some "DeviceNotRegistered"
                all_goals
                  have hred : (sendGameInvitationNotification inv (some u) (some iv)
                      fmt transport).1 =
                      { success := false, error := some t0.message } := by
                    simp [sendGameInvitationNotification, hft, hex, htr, hst, hdnr]
                all_goals rw [hred]
                all_goals refine ⟨Or.inr ⟨rfl, rfl⟩, ?_, ?_⟩
                all_goals
                  first
                  | (intro h
                     exact Bool.noConfusion h)
                  | (rintro ⟨u', iv', t, hu, hiv, hjf, hex', htr', hst'⟩
                     injection hu with hu'
                     subst hu'
                     injection hiv with hiv'
                     subst hiv'
                     rw [htr] at htr'
                     injection htr' with hts
                     injection hts with ht hrest'
                     exact absurd (ht ▸ hst) hst')
              · have hred : (sendGameInvitationNotification inv (some u) (some iv)
                    fmt transport).1 = { success := true, error := none } := by
                  simp [sendGameInvitationNotification, hft, hex, htr, hst]
                rw [hred]
                refine ⟨Or.inl rfl, ?_, ?_⟩
                · intro _
                  exact ⟨u, iv, t0, rfl, rfl, hft, hex, htr, hst⟩
                · intro _
                  rfl

/-- Target-user row for the C9 witness. -/
def targetUserX : TargetUser :=
  { id := "u1", push_token := some "ExponentPushToken[a]",
    full_name := some "Target", email := some "t@example.com" }

/-- Inviter row for the C9 witness. -/
def inviterX : Inviter :=
  { full_name := some "Inviter", email := some "i@example.com" }

/-- Invitation payload for the C9 witness. -/
def invitationX : InvitationData :=
  { targetUserId := "u1", inviterUserId := "u2", gameId := "g1",
    gameTitle := "Game", gameDate := "2024-01-01", gameTime := "18:00",
    pitchName := "Pitch", pitchLocation := "Loc" }

/-- A single-recipient transport answering one ok ticket per message. -/
def transportOkPerMessage : List PushMessage → Except String (List Ticket) :=
  fun msgs => Except.ok (msgs.map fun _ => { status := TicketStatus.ok })

/-- C9 witness: with both lookups succeeding, a valid token and an ok
ticket, the call reports `{success: true}`. -/
theorem c9_invitation_result_witness :
    (sendGameInvitationNotification invitationX (some targetUserX) (some inviterX)
        fmtFirst transportOkPerMessage).1.success = true :=
  ((c9_invitation_result invitationX (some targetUserX) (some inviterX) fmtFirst
      transportOkPerMessage
      (fun msgs ts h => by
        injection h with h'
        rw [← h']
        simp)).2).mpr
    ⟨targetUserX, inviterX, { status := TicketStatus.ok }, rfl, rfl, by decide,
      by decide, rfl, by decide⟩

example : Expo.isExpoPushToken "bad" = false := by decide

example : Expo.isExpoPushToken "ExponentPushToken[abc]" = true := by decide

example : Expo.isExpoPushToken "" = false := by decide

example :
    Expo.chunkPushNotifications
      (buildMessages ["ExponentPushToken[a]", "bad"] "t" "b" []) =
      [[{ «to» := "ExponentPushToken[a]", title := "t", body := "b" }]] := by decide
